import Mathlib

/-!
Verification development for the Instagram protocol analysis CLI.

The repository is a thin TypeScript wrapper (src/src/index.ts, src/src/auth/index.ts)
around the external instagram-private-api library.  The definitions below embed the
in-repo functions directly from the source; parts of behaviour that live only in the
external library (state serialize/deserialize, device generation, the paginated feed,
the send path's client context) are modelled from the specification and are marked
with a doc comment starting with the words Modelled from the spec.
-/

namespace IgProto

/-! ## Data model -/

/-- Device identity fields, as described by the spec data model and persisted by the
library state (deviceId, phoneId, advertising id, android id). -/
structure DeviceIdentity where
  deviceId : String
  phoneId : String
  adid : String
  androidId : String
  deriving DecidableEq, Repr

/-- Session state held by the library client: device identity, cookies,
optional bearer token, user id, csrf token, plus the static constants table that
the library state also carries. -/
structure SessionState where
  device : DeviceIdentity
  cookies : List (String × String)
  bearerToken : Option String
  userId : Option Nat
  csrfToken : Option String
  constants : List (String × String)
  deriving DecidableEq, Repr

/-- JSON-like values appearing in the serialized session object. -/
inductive JVal where
  | str : String → JVal
  | num : Nat → JVal
  | kvs : List (String × String) → JVal
  deriving DecidableEq, Repr

/-- The snapshot schema version stamped by serialize. -/
def schemaVersion : Nat := 1

/-- The static constants table the library reattaches on deserialize; a fixed
nonempty stand-in for the large capability tables. -/
def constantsTable : List (String × String) :=
  [("APP_VERSION", "121.0.0.29.119"), ("CAPABILITIES_HEADER", "3brTvw=="),
   ("BLOKS_VERSION_ID", "0e00d46b0b6ff09aa4d75f509ec4e2b6a26bf2d9d9ba94ba8f33ecb3d0dfe237")]

/-- Modelled from the spec: the session store serialize (spec 4.2 and 6) producing the
versioned snapshot object; the underlying implementation lives in the external
instagram-private-api library (ig.state.serialize).  Only per-user fields plus the
constants table appear; optional fields are emitted only when present.  AuthManager's
saveSession strips the constants field afterwards. -/
def serializeState (st : SessionState) : List (String × JVal) :=
  [("schemaVersion", JVal.num schemaVersion),
   ("deviceId", JVal.str st.device.deviceId),
   ("phoneId", JVal.str st.device.phoneId),
   ("adid", JVal.str st.device.adid),
   ("androidId", JVal.str st.device.androidId),
   ("cookies", JVal.kvs st.cookies)]
  ++ (match st.bearerToken with
      | some t => [("bearerToken", JVal.str t)]
      | none => [])
  ++ (match st.userId with
      | some u => [("userId", JVal.num u)]
      | none => [])
  ++ (match st.csrfToken with
      | some c => [("csrfToken", JVal.str c)]
      | none => [])
  ++ [("constants", JVal.kvs st.constants)]

/-- AuthManager.saveSession (src/src/auth/index.ts lines 187-195): serialize the state,
delete the constants field, and persist the resulting object. -/
def saveSessionSnapshot (st : SessionState) : List (String × JVal) :=
  (serializeState st).filter (fun p => p.1 != "constants")

/-- Field extraction helper for restore: a string-valued field, if present. -/
def restoreStr (k : String) (snap : List (String × JVal)) : Option String :=
  match List.lookup k snap with
  | some (JVal.str t) => some t
  | _ => none

/-- Field extraction helper for restore: a numeric field, if present. -/
def restoreNum (k : String) (snap : List (String × JVal)) : Option Nat :=
  match List.lookup k snap with
  | some (JVal.num u) => some u
  | _ => none

/-- Field extraction helper for restore: a key-value-table field, if present. -/
def restoreKvs (k : String) (snap : List (String × JVal)) : Option (List (String × String)) :=
  match List.lookup k snap with
  | some (JVal.kvs cs) => some cs
  | _ => none

/-- Modelled from the spec: restore(snapshot) (spec 4.2), implemented in the external
library as ig.state.deserialize and invoked by AuthManager.loadSession.  Fails
(CorruptSnapshot, here none) when the schema version is unrecognized or a required
field is absent; optional per-user fields are taken when present; the static constants
table is reattached from the library defaults. -/
def restore (snap : List (String × JVal)) : Option SessionState :=
  match restoreNum "schemaVersion" snap, restoreStr "deviceId" snap,
        restoreStr "phoneId" snap, restoreStr "adid" snap,
        restoreStr "androidId" snap, restoreKvs "cookies" snap with
  | some v, some d, some p, some a, some an, some cs =>
    if v = schemaVersion then
      some { device := ⟨d, p, a, an⟩
             cookies := cs
             bearerToken := restoreStr "bearerToken" snap
             userId := restoreNum "userId" snap
             csrfToken := restoreStr "csrfToken" snap
             constants := constantsTable }
    else none
  | _, _, _, _, _, _ => none

/-- Observational equality of session states: same logical per-user fields, with
cookies compared as a map (order-independent); the static constants table is not a
logical field. -/
def obsEq (s1 s2 : SessionState) : Prop :=
  s1.device = s2.device ∧
  (∀ k, List.lookup k s1.cookies = List.lookup k s2.cookies) ∧
  s1.bearerToken = s2.bearerToken ∧ s1.userId = s2.userId ∧ s1.csrfToken = s2.csrfToken

/-! ## hasValidSession (src/src/index.ts utils, lines 218-231) -/

/-- Shape of the parsed session file contents that hasValidSession inspects: the
cookies field may be absent (undefined) and the user id may be absent. -/
structure StoredSession where
  cookies : Option (List String)
  userId : Option Nat
  deriving DecidableEq, Repr

/-- Utility hasValidSession from the source: false when the session file does not
exist (outer none) or does not parse (inner none); otherwise the JS truthiness test
data and data.cookies and data.cookies.length greater than zero. -/
def hasValidSession (file : Option (Option StoredSession)) : Bool :=
  match file with
  | none => false
  | some none => false
  | some (some d) =>
    match d.cookies with
    | some cs => decide (0 < cs.length)
    | none => false

/-! ## truncate (src/src/auth/index.ts messaging, lines 478-481) -/

/-- MessagingClient.truncate from the source: return the string unchanged when its
length is at most maxLength, else keep the first maxLength minus three characters and
append three dots. -/
def truncate (str : List Char) (maxLength : Nat) : List Char :=
  if str.length ≤ maxLength then str
  else str.take (maxLength - 3) ++ ['.', '.', '.']

/-! ## Instagram timestamps (src/src/index.ts utils, lines 236-246) -/

/-- Decimal printing of a natural number as JS toString does: the digit characters,
most significant first, with zero printed as the single digit zero. -/
def toDecimalChars (n : Nat) : List Char :=
  if n = 0 then ['0'] else ((Nat.digits 10 n).reverse).map Nat.digitChar

/-- Numeric value of a decimal digit character. -/
def charToDigit (c : Char) : Nat := c.toNat - 48

/-- JS parseInt restricted to the all-digit strings our producer emits: empty input
gives NaN (none), otherwise the base-ten value of the digit characters. -/
def parseIntChars (cs : List Char) : Option Nat :=
  if cs.isEmpty then none
  else some (Nat.ofDigits 10 ((cs.map charToDigit).reverse))

/-- Utility getInstagramTimestamp from the source, abstracted over the current time in
milliseconds: the microsecond value now times one thousand, printed in decimal. -/
def getInstagramTimestamp (nowMs : Nat) : List Char :=
  toDecimalChars (nowMs * 1000)

/-- Utility parseInstagramTimestamp from the source: parse the numeric string and
divide by one thousand to convert microseconds back to a millisecond Date value. -/
def parseInstagramTimestamp (cs : List Char) : Option Nat :=
  (parseIntChars cs).map (fun ts => ts / 1000)

/-! ## Device id generators (src/src/index.ts utils, lines 158-174) -/

/-- Hex digit as JS Number.prototype.toString with base sixteen produces for a nibble. -/
def hexChar (n : Nat) : Char := Nat.digitChar (n % 16)

/-- The UUID v4 template string used by the source's generateUUID. -/
def uuidTemplate : List Char := "xxxxxxxx-xxxx-4xxx-yxxx-xxxxxxxxxxxx".toList

/-- Core of generateUUID: walk the template; each x consumes one sampled nibble r and
emits its hex digit, each y consumes one nibble r and emits the hex digit of
r AND 3 OR 8; other characters are copied.  The nibble stream models the successive
values of Math.random() times sixteen, floored. -/
def uuidGo : List Char → List Nat → List Char
  | [], _ => []
  | c :: cs, rs =>
    if c = 'x' then hexChar (rs.headD 0) :: uuidGo cs rs.tail
    else if c = 'y' then hexChar (((rs.headD 0 % 16) &&& 3) ||| 8) :: uuidGo cs rs.tail
    else c :: uuidGo cs rs

/-- Utility generateUUID from the source, abstracted over the entropy stream it
samples: it takes no seed argument, and its output is determined by the sampled
nibbles alone. -/
def generateUUID (rand : List Nat) : List Char :=
  uuidGo uuidTemplate rand

/-- Utility generateAndroidId from the source, abstracted over the entropy stream:
the literal android- followed by sixteen sampled hex digits. -/
def generateAndroidId (rand : List Nat) : List Char :=
  "android-".toList ++ (List.range 16).map (fun i => hexChar (rand.getD i 0))

/-- Deterministic string hash used by the device derivation model (a Horner fold over
the characters, as a stand-in for the hash named by the spec). -/
def specHash (s : String) : Nat :=
  s.toList.foldl (fun a c => (a * 131 + c.toNat) % 1000000007) 7

/-- Hex rendering of a hash value for id fields. -/
def hashHex (n : Nat) : List Char :=
  (List.range 8).map (fun i => hexChar ((n / 16 ^ i) % 16))

/-- Modelled from the spec: the device identity generator (spec 4.1), implemented in
the external library as ig.state.generateDevice and invoked by AuthManager.login with
the username as seed.  Each field is derived by a deterministic hash of the seed plus
a fixed per-field salt; no entropy source is involved. -/
def generateDevice (seed : String) : DeviceIdentity :=
  { deviceId := String.mk (hashHex (specHash (seed ++ ":deviceId")))
    phoneId := String.mk (hashHex (specHash (seed ++ ":phoneId")))
    adid := String.mk (hashHex (specHash (seed ++ ":adid")))
    androidId := String.mk ("android-".toList ++ hashHex (specHash (seed ++ ":androidId"))) }

/-! ## Two-factor handling (src/src/auth/index.ts, lines 122-152) -/

/-- States of the authentication flow described by the spec. -/
inductive AuthState where
  | unauthenticated
  | awaitingTwoFactor
  | awaitingChallenge
  | authenticated
  | failed
  deriving DecidableEq, Repr

/-- AuthManager.handle2FA from the source: prompt once for a code, submit it once;
on success the session is saved and the user is returned, on any error the handler
prints a failure message and returns null.  The resulting flow state: authenticated
when the server accepts the code, failed otherwise — there is no retry loop and no
attempt counter. -/
def handle2FA (codeAccepted : Bool) : AuthState :=
  if codeAccepted then AuthState.authenticated else AuthState.failed

/-- Flow state after submitting a sequence of two-factor codes starting from
AwaitingTwoFactor, per the source: handle2FA is invoked once with the first code and
the flow ends there; later codes are never requested. -/
def twoFactorRun (verdicts : List Bool) : AuthState :=
  match verdicts with
  | [] => AuthState.awaitingTwoFactor
  | v :: _ => handle2FA v

/-! ## Paginated feed (spec 4.5; invoked from MessagingClient.showInbox) -/

/-- One page returned by the server: items, the next cursor, and the hasMore flag. -/
structure Page (α : Type) where
  items : List α
  nextCursor : Option String
  hasMore : Bool

/-- Pagination cursor state owned by the feed iterator. -/
structure FeedCursor where
  cursor : Option String
  hasMore : Bool

/-- Modelled from the spec: one pull of the paginated feed iterator (spec 4.5); the
iterator itself lives in the external library (ig.feed.directInbox), the repository
only calls it from MessagingClient.showInbox.  If hasMore is false the sequence ends
(none); otherwise exactly one request is issued with the current cursor and the
cursor state is updated from the response. -/
def feedStep {α : Type} (server : Option String → Page α) (c : FeedCursor) :
    Option (List α × FeedCursor) :=
  if c.hasMore then
    let p := server c.cursor
    some (p.items, ⟨p.nextCursor, p.hasMore⟩)
  else none

/-- Modelled from the spec: draining the feed iterator.  Fuel bounds the recursion;
emptyLeft is the max-empty-pages-before-abort guard (default three) which resets on a
nonempty page. -/
def feedCollect {α : Type} (server : Option String → Page α) :
    Nat → Nat → FeedCursor → List α
  | 0, _, _ => []
  | fuel + 1, emptyLeft, c =>
    match feedStep server c with
    | none => []
    | some (items, c2) =>
      if items.isEmpty then
        match emptyLeft with
        | 0 => []
        | e + 1 => feedCollect server fuel e c2
      else items ++ feedCollect server fuel 3 c2

/-- The mock server of the spec's pagination scenario: three pages of sizes two, two
and one, with hasMore true, true, false. -/
def mockServer : Option String → Page Nat
  | none => ⟨[1, 2], some "p2", true⟩
  | some "p2" => ⟨[3, 4], some "p3", true⟩
  | some "p3" => ⟨[5], none, false⟩
  | some _ => ⟨[], none, false⟩

/-- The initial cursor of a fresh feed. -/
def initialCursor : FeedCursor := ⟨none, true⟩

/-! ## Send path and client context (src/src/auth/index.ts messaging, lines 405-440) -/

/-- One transport-level request of a send, carrying the idempotency token. -/
structure SendRequest where
  clientContext : String
  text : String
  attempt : Nat
  deriving DecidableEq, Repr

/-- Outcome of one transport attempt. -/
inductive SendOutcome where
  | ok
  | transient
  | serverError
  deriving DecidableEq, Repr

/-- Modelled from the spec: the trace of transport requests one logical sendText
performs (spec 4.6); the client context machinery lives in the external library's
direct.send, the repository only calls it from MessagingClient.sendMessage.  The
logical send mints ctx once; each retry after a Transient outcome reuses the same
ctx, bounded by retriesLeft; any other outcome ends the attempt sequence. -/
def sendTrace (ctx : String) (text : String) (outcomes : Nat → SendOutcome) :
    Nat → Nat → List SendRequest
  | 0, i => [⟨ctx, text, i⟩]
  | r + 1, i =>
    match outcomes i with
    | SendOutcome.transient => ⟨ctx, text, i⟩ :: sendTrace ctx text outcomes r (i + 1)
    | _ => [⟨ctx, text, i⟩]

/-- Modelled from the spec: a logical sendText call, given the fresh UUID minted for
it, produces its transport trace with that UUID as the client context for every
attempt. -/
def sendText (freshUuid : String) (text : String) (outcomes : Nat → SendOutcome)
    (maxRetries : Nat) : List SendRequest :=
  sendTrace freshUuid text outcomes maxRetries 0

/-! ## CLI exit behaviour (src/src/index.ts, lines 98-107 and messaging 405-440) -/

/-- Result of resolving the recipient and performing the library send call; the
Except models a thrown exception from the library. -/
def sendMessage (lookedUpUserId : Option Nat) (sendResult : Except String Unit) : Bool :=
  match lookedUpUserId with
  | none => false
  | some _ =>
    match sendResult with
    | Except.ok _ => true
    | Except.error _ => false

/-- The send command action as wired in the CLI: it invokes sendMessage and discards
the boolean; since sendMessage catches every error internally, the action itself
never propagates an error to main. -/
def sendAction (lookedUpUserId : Option Nat) (sendResult : Except String Unit) :
    Except String Unit :=
  let _ := sendMessage lookedUpUserId sendResult
  Except.ok ()

/-- Function main from the source: await the command action; a caught error prints
and exits with code one, otherwise the process ends with code zero. -/
def mainExitCode (actionResult : Except String Unit) : Nat :=
  match actionResult with
  | Except.ok _ => 0
  | Except.error _ => 1

/-! ## Theorems -/

/-- C9: for maxLength at least three, truncate never exceeds maxLength, and a string
already within the limit is returned unchanged. -/
theorem truncate_bounds (str : List Char) (maxLength : Nat) (h : 3 ≤ maxLength) :
    (truncate str maxLength).length ≤ maxLength ∧
    (str.length ≤ maxLength → truncate str maxLength = str) := by
  constructor
  · unfold truncate
    by_cases hle : str.length ≤ maxLength
    · simp [hle]
    · simp only [hle, if_false, List.length_append, List.length_take, List.length_cons,
        List.length_nil]
      omega
  · intro hle
    simp [truncate, hle]

/-- Witness for truncate_bounds at a concrete long string and limit five. -/
theorem truncate_bounds_witness :
    (truncate "hello world".toList 5).length ≤ 5 ∧
    ("hello world".toList.length ≤ 5 → truncate "hello world".toList 5 = "hello world".toList) :=
  truncate_bounds "hello world".toList 5 (by decide)

/-- C7: the session snapshot that saveSession persists never contains the constants
field: the key is stripped from the serialized object before it is written. -/
theorem saveSession_omits_constants (st : SessionState) :
    "constants" ∉ (saveSessionSnapshot st).map Prod.fst := by
  intro hmem
  obtain ⟨p, hp, hfst⟩ := List.mem_map.mp hmem
  have hkeep := (List.mem_filter.mp hp).2
  rw [hfst] at hkeep
  simp at hkeep

/-- Session data with a nonempty cookie array but no user id. -/
def noUserSession : StoredSession := ⟨some ["sessionid=abc123"], none⟩

/-- C3 counterexample: a parsed session holding cookies but no userId is reported as
authenticated by hasValidSession, contradicting the claim that a userId is required. -/
theorem hasValidSession_ignores_userId :
    hasValidSession (some (some noUserSession)) = true ∧ noUserSession.userId = none := by
  exact ⟨by decide, rfl⟩

/-- C3 amended: hasValidSession returns true iff the session file exists, parses, and
its cookies field is a nonempty array; no bearer token or userId is consulted. -/
theorem hasValidSession_iff (file : Option (Option StoredSession)) :
    hasValidSession file = true ↔
      ∃ d cs, file = some (some d) ∧ d.cookies = some cs ∧ 0 < cs.length := by
  cases file with
  | none => simp [hasValidSession]
  | some inner =>
    cases inner with
    | none => simp [hasValidSession]
    | some d =>
      cases hc : d.cookies with
      | none => simp [hasValidSession, hc]
      | some cs => simp [hasValidSession, hc]

/-- C8 counterexample: a send whose library call throws is caught inside sendMessage,
which returns false; the command action completes normally and main exits with code
zero rather than one. -/
theorem failed_send_exits_zero :
    sendMessage (some 42) (Except.error "500 server error") = false ∧
    mainExitCode (sendAction (some 42) (Except.error "500 server error")) = 0 :=
  ⟨rfl, rfl⟩

/-- C8 amended: main exits with code one exactly when an error propagates out of the
command action and zero otherwise; the send action never propagates an error because
sendMessage catches failures internally and returns a boolean, so every send
invocation, failed or not, exits zero. -/
theorem mainExitCode_spec (r : Except String Unit) (u : Option Nat)
    (s : Except String Unit) :
    (mainExitCode r = 1 ↔ ∃ e, r = Except.error e) ∧
    mainExitCode (sendAction u s) = 0 := by
  constructor
  · cases r <;> simp [mainExitCode]
  · rfl

/-- C4 counterexample: a single wrong two-factor code — fewer than the claimed three —
already leaves the flow in the terminal failed state, not in AwaitingTwoFactor. -/
theorem one_wrong_code_fails :
    twoFactorRun [false] = AuthState.failed ∧
    AuthState.failed ≠ AuthState.awaitingTwoFactor :=
  ⟨rfl, by decide⟩

/-- C4 amended: handle2FA makes exactly one attempt: an accepted first code
authenticates and a rejected first code transitions the flow to Failed immediately;
there is no retry counter and later codes are never requested. -/
theorem twoFactorRun_single_attempt (v : Bool) (rest : List Bool) :
    twoFactorRun (v :: rest) =
      (if v then AuthState.authenticated else AuthState.failed) ∧
    twoFactorRun [] = AuthState.awaitingTwoFactor :=
  ⟨rfl, rfl⟩

/-- Helper: uuidGo emits exactly one character per template character, for every
entropy stream. -/
theorem uuidGo_length (cs : List Char) : ∀ rs : List Nat, (uuidGo cs rs).length = cs.length := by
  induction cs with
  | nil => intro rs; rfl
  | cons c cs ih =>
    intro rs
    unfold uuidGo
    by_cases hx : c = 'x'
    · simp [hx, ih]
    · by_cases hy : c = 'y'
      · simp [hx, hy, ih]
      · simp [hx, hy, ih]

/-- C2 counterexample: the in-repo generateUUID takes no seed, and its output varies
with the entropy it samples: two invocations drawing different nibble streams return
different identifiers, so the repository's device-id helpers are not a deterministic
function of a seed with no entropy source. -/
theorem generateUUID_depends_on_entropy :
    generateUUID (List.replicate 31 0) ≠ generateUUID (List.replicate 31 1) := by
  decide

/-- C2 amended: the device identity used at login is produced by the library's
generateDevice (modelled from the spec), which is deterministic in the seed and
separates concrete distinct seeds; the repository's own generateUUID and
generateAndroidId helpers take no seed — each is a function of its sampled entropy
stream, always of the fixed shape (36 characters with dashes and the version
nibble in place; android- plus sixteen hex digits). -/
theorem device_identity_generation (seed : String) (r : List Nat) :
    generateDevice seed = generateDevice seed ∧
    generateDevice "alice" ≠ generateDevice "bob" ∧
    (generateUUID r).length = 36 ∧
    (generateAndroidId r).length = 24 := by
  refine ⟨rfl, by decide, ?_, ?_⟩
  · rw [generateUUID, uuidGo_length]
    rfl
  · simp [generateAndroidId]

/-- C5: the feed iterator over the mock three-page server of sizes two, two, one with
hasMore true, true, false yields exactly the five items in server order and then
terminates; in general a pull whose cursor has hasMore false ends the sequence, and a
pull with hasMore true issues exactly one request at the current cursor and updates
the cursor state from the response. -/
theorem feed_pagination :
    feedCollect mockServer 10 3 initialCursor = [1, 2, 3, 4, 5] ∧
    (∀ (α : Type) (server : Option String → Page α) (c : FeedCursor),
      (c.hasMore = false → feedStep server c = none) ∧
      (c.hasMore = true →
        feedStep server c =
          some ((server c.cursor).items,
                ⟨(server c.cursor).nextCursor, (server c.cursor).hasMore⟩))) := by
  constructor
  · decide
  · intro α server c
    constructor
    · intro h
      simp [feedStep, h]
    · intro h
      simp [feedStep, h]

/-- Witness for feed_pagination: the exhausted cursor reached after the third page
ends the sequence. -/
theorem feed_pagination_witness :
    feedStep mockServer ⟨(none : Option String), false⟩ = none :=
  (feed_pagination.2 Nat mockServer ⟨none, false⟩).1 rfl

/-- Helper: every request in a send trace carries the minted client context. -/
theorem sendTrace_context (ctx t : String) (o : Nat → SendOutcome) :
    ∀ r i, ∀ req ∈ sendTrace ctx t o r i, req.clientContext = ctx := by
  intro r
  induction r with
  | zero =>
    intro i req h
    simp only [sendTrace, List.mem_singleton] at h
    rw [h]
  | succ r ih =>
    intro i req h
    rw [sendTrace] at h
    cases ho : o i with
    | transient =>
      rw [ho] at h
      rcases List.mem_cons.mp h with h | h
      · rw [h]
      · exact ih (i + 1) req h
    | ok =>
      rw [ho] at h
      simp only [List.mem_singleton] at h
      rw [h]
    | serverError =>
      rw [ho] at h
      simp only [List.mem_singleton] at h
      rw [h]

/-- Helper: a send trace always contains at least the first attempt. -/
theorem sendTrace_ne_nil (ctx t : String) (o : Nat → SendOutcome) (r i : Nat) :
    sendTrace ctx t o r i ≠ [] := by
  cases r with
  | zero => simp [sendTrace]
  | succ r => cases ho : o i <;> simp [sendTrace, ho]

/-- C6: one logical sendText mints a single clientContext and every transport-level
attempt — including retries after transient failures — carries exactly that value;
the trace is nonempty, and two logical sends whose minted UUIDs differ never share a
clientContext on any pair of attempts. -/
theorem sendText_clientContext (u1 u2 t1 t2 : String) (o1 o2 : Nat → SendOutcome)
    (m1 m2 : Nat) (hne : u1 ≠ u2) :
    (∀ req ∈ sendText u1 t1 o1 m1, req.clientContext = u1) ∧
    sendText u1 t1 o1 m1 ≠ [] ∧
    (∀ r1 ∈ sendText u1 t1 o1 m1, ∀ r2 ∈ sendText u2 t2 o2 m2,
      r1.clientContext ≠ r2.clientContext) := by
  refine ⟨?_, sendTrace_ne_nil u1 t1 o1 m1 0, ?_⟩
  · intro req h
    exact sendTrace_context u1 t1 o1 m1 0 req h
  · intro r1 h1 r2 h2
    rw [sendTrace_context u1 t1 o1 m1 0 r1 h1, sendTrace_context u2 t2 o2 m2 0 r2 h2]
    exact hne

/-- Witness for sendText_clientContext: a send retried twice on transient errors and
an independent send with a different minted UUID. -/
theorem sendText_clientContext_witness :
    (∀ req ∈ sendText "ctx-one" "hi" (fun _ => SendOutcome.transient) 2,
      req.clientContext = "ctx-one") ∧
    sendText "ctx-one" "hi" (fun _ => SendOutcome.transient) 2 ≠ [] ∧
    (∀ r1 ∈ sendText "ctx-one" "hi" (fun _ => SendOutcome.transient) 2,
      ∀ r2 ∈ sendText "ctx-two" "yo" (fun _ => SendOutcome.ok) 2,
        r1.clientContext ≠ r2.clientContext) :=
  sendText_clientContext "ctx-one" "ctx-two" "hi" "yo"
    (fun _ => SendOutcome.transient) (fun _ => SendOutcome.ok) 2 2 (by decide)

/-- Helper: charToDigit inverts digitChar on decimal digits. -/
theorem charToDigit_digitChar (d : Nat) (h : d < 10) :
    charToDigit (Nat.digitChar d) = d := by
  interval_cases d <;> rfl

/-- Helper: parsing the decimal printing of any natural number recovers it. -/
theorem parse_toDecimal (n : Nat) : parseIntChars (toDecimalChars n) = some n := by
  by_cases h0 : n = 0
  · subst h0; decide
  · unfold toDecimalChars parseIntChars
    have hne : Nat.digits 10 n ≠ [] := Nat.digits_ne_nil_iff_ne_zero.mpr h0
    rw [if_neg h0]
    rw [if_neg (by simp [List.isEmpty_iff, hne])]
    congr 1
    have hmap : ((Nat.digits 10 n).reverse.map Nat.digitChar).map charToDigit
        = (Nat.digits 10 n).reverse.map id := by
      rw [List.map_map]
      refine List.map_congr_left ?_
      intro d hd
      have hd10 : d < 10 := Nat.digits_lt_base (by norm_num) (List.mem_reverse.mp hd)
      simp [charToDigit_digitChar d hd10]
    rw [hmap, List.map_id, List.reverse_reverse, Nat.ofDigits_digits]

/-- C10: the Instagram timestamp conversion round-trips at millisecond precision —
parsing the microsecond string printed for millisecond time t yields exactly t. -/
theorem timestamp_roundtrip (t : Nat) :
    parseInstagramTimestamp (getInstagramTimestamp t) = some t := by
  unfold getInstagramTimestamp parseInstagramTimestamp
  rw [parse_toDecimal (t * 1000)]
  show some (t * 1000 / 1000) = some t
  congr 1
  omega

/-- C1: restoring the snapshot written by saveSession succeeds and yields a state
observationally equal to the original: every logical per-user field (device identity,
cookie map, bearer token, user id, csrf token) survives the round-trip; only the
static constants table is re-attached from the library defaults. -/
theorem session_roundtrip (st : SessionState) :
    restore (saveSessionSnapshot st) = some { st with constants := constantsTable } ∧
    obsEq { st with constants := constantsTable } st := by
  constructor
  · obtain ⟨⟨d, p, a, an⟩, cs, bt, uid, ct, cons⟩ := st
    cases bt <;> cases uid <;> cases ct <;> rfl
  · exact ⟨rfl, fun k => rfl, rfl, rfl, rfl⟩

end IgProto
